import Mathlib

/-
Shallow embedding of tgwp_updater.py: a script that extracts chapter links
from a forum post, diffs them against the latest mirrored Reddit post, and
submits the missing chapters with a bounded rate-limit retry.

Python exceptions are modelled by the PyError type; functions that can raise
return Except PyError or record the uncaught exception in a Trace.  External
effects (submission results, re-query results) are supplied by an Env oracle.
-/

namespace TgwpUpdater

/-- Chapter = namedtuple("Chapter", "title url") (tgwp_updater.py line 68).
The url is Option String because link.get("href") can return None. -/
structure Chapter where
  title : String
  url : Option String
deriving DecidableEq, Repr

/-- The kinds of Python exceptions the modelled code can raise:
TgwpError (line 71), AttributeError (attribute access on None),
IndexError (list index out of range), ValueError (int() on a non-integer),
praw RateLimitExceeded escaping uncaught, and any other praw/API error. -/
inductive PyError where
  | tgwpError (msg : String)
  | attributeError
  | indexError
  | valueError
  | rateLimitError
  | apiError
deriving DecidableEq, Repr

/-- One anchor element of the forum post: its text, its href attribute
(None possible), and the text of link.next_sibling.next_sibling
(the text node following the anchor, line 175). -/
structure Anchor where
  text : String
  href : Option String
  siblingText : String
deriving DecidableEq, Repr

/-- The article element: post.div.text.splitlines() (none when the article
has no div, raising AttributeError on .text), and the anchors reachable from
post.a by find_next("a") in document order. -/
structure Article where
  divLines : Option (List String)
  anchors : List Anchor
deriving DecidableEq, Repr

/-- The parsed forum page: BeautifulSoup(text).html.article, none when the
document has no article element (AttributeError on the later attribute access). -/
structure Doc where
  article : Option Article
deriving DecidableEq, Repr

/-- The whitespace characters stripped by Python str.strip(). -/
def isPySpace (c : Char) : Bool :=
  c = ' ' || c = '\t' || c = '\n' || c = '\r' || c = '\x0b' || c = '\x0c'

/-- Python s.strip() as a character list: remove leading and trailing
whitespace. -/
def pyStrip (s : String) : List Char :=
  ((s.data.dropWhile isPySpace).reverse.dropWhile isPySpace).reverse

/-- The sentinel anchor text terminating the chapter list (lines 169-170). -/
def sentinelText : String :=
  "On those who live to see old age in a profession where most die young."

/-- The while loop of _get_story_links (lines 167-181).  The first argument of
the recursion is the list of anchors not yet visited; the String argument is
the current value of the post_title variable (mutated by += at line 177).
An empty anchor list means link is None and link.text raises AttributeError. -/
def walkLinks (indexUrl : String) : List Anchor → String → Except PyError (List Chapter)
  | [], _ => .error .attributeError
  | a :: rest, postTitle =>
    if a.text = sentinelText then .ok []
    else
      let ch : Chapter := ⟨a.text, a.href⟩
      if (pyStrip a.siblingText).isEmpty then
        (walkLinks indexUrl rest postTitle).map (fun l => ch :: l)
      else
        let pt2 := if postTitle = a.text then postTitle ++ " (Cont.)" else postTitle
        (walkLinks indexUrl rest pt2).map
          (fun l => ch :: Chapter.mk pt2 (some indexUrl) :: l)

/-- Model of _get_story_links (lines 140-182): a non-200 status raises TgwpError before
any parsing; then post = html.article (AttributeError when absent), post_title
= post.div.text.splitlines()[1] (AttributeError when div absent, IndexError
when fewer than two lines), then the anchor walk.  indexUrl models
SETTINGS["tgwp_index_url"], used as the url of synthetic chapters (line 178). -/
def getStoryLinks (statusCode : Nat) (doc : Doc) (indexUrl : String) :
    Except PyError (List Chapter) :=
  if statusCode ≠ 200 then .error (.tgwpError "Cannot access the forum page.")
  else
    match doc.article with
    | none => .error .attributeError
    | some post =>
      match post.divLines with
      | none => .error .attributeError
      | some lines =>
        match lines[1]? with
        | none => .error .indexError
        | some postTitle => walkLinks indexUrl post.anchors postTitle

/-- A Reddit submission as seen by _get_latest_post: author name, title, url. -/
structure Post where
  author : String
  title : String
  url : String
deriving DecidableEq, Repr

/-- Model of _get_latest_post (lines 205-227): scan the new listing for the first post
whose author is in SETTINGS["uploaders"]; the for/else branch (no match after
scanning all candidates) sends a message to the admin and falls through,
returning None.  The Bool records whether the admin message was sent. -/
def getLatestPost : List Post → List String → Option Post × Bool
  | [], _ => (none, true)
  | p :: rest, uploaders =>
    if uploaders.contains p.author then (some p, false)
    else getLatestPost rest uploaders

/-- The characters before the first occurrence of sep, or the whole list when
sep does not occur. -/
def partitionChars (sep : List Char) : List Char → List Char
  | [] => []
  | c :: rest =>
    if sep.isPrefixOf (c :: rest) then []
    else c :: partitionChars sep rest

/-- Python s.partition(sep)[0]: the part of s before the first occurrence of
sep, or the whole string when sep does not occur. -/
def partitionFirst (sep s : String) : String := ⟨partitionChars sep.data s.data⟩

/-- A non-empty all-digit character run read as a decimal Nat; none models
the ValueError that int() raises on anything else. -/
def digitsToNat (l : List Char) : Option Nat :=
  if l ≠ [] ∧ l.all Char.isDigit then
    some (l.foldl (fun acc c => acc * 10 + (c.toNat - 48)) 0)
  else none

/-- Python int(s) on a string: strip surrounding whitespace, allow one leading
sign, then require a non-empty digit run; none models the ValueError raised
otherwise. -/
def pyInt (s : String) : Option Int :=
  match pyStrip s with
  | '-' :: rest => (digitsToNat rest).map (fun n => -(n : Int))
  | '+' :: rest => (digitsToNat rest).map (fun n => (n : Int))
  | l => (digitsToNat l).map (fun n => (n : Int))

/-- Result of one call to self.session.submit inside _submit_post (line 245):
success, praw.errors.RateLimitExceeded, or any other exception. -/
inductive SubmitOutcome where
  | ok
  | rateLimited
  | otherError
deriving DecidableEq, Repr

/-- External oracle: submitResult n is the outcome of the n-th submission call
of the run; requeryUrl n is the url of the post returned by the n-th re-query
via _get_latest_post at line 281 (none when no post is found, in which case
the .url attribute access on None raises AttributeError). -/
structure Env where
  submitResult : Nat → SubmitOutcome
  requeryUrl : Nat → Option String

/-- One invocation of _submit_post, as observed: target subreddit, title, url.
The admin-notification message inside _submit_post (lines 246-249) has no
bearing on any claim and is not recorded. -/
structure SubCall where
  sub : String
  title : String
  url : Option String
deriving DecidableEq, Repr

/-- Observable effects of (part of) a run: the submission calls attempted in
order, the total seconds slept in rate-limit back-offs, and the uncaught
exception terminating the run, if any. -/
structure Trace where
  calls : List SubCall
  sleepSeconds : Nat
  crashed : Option PyError
deriving DecidableEq, Repr

def Trace.empty : Trace := ⟨[], 0, none⟩

/-- The try/except body of _update_latest_link for one chapter/destination
pair (lines 274-287).  State s = (submission call counter, re-query counter).
A first-call RateLimitExceeded is caught: sleep 10*60 seconds, re-query the
latest post (AttributeError if none), skip when its url equals the link url,
otherwise retry once; nothing catches a failure of the retry, nor a
non-rate-limit error of the first call, so those crash. -/
def submitOne (env : Env) (s : Nat × Nat) (sub title : String) (url : Option String) :
    Trace × (Nat × Nat) :=
  let c : SubCall := ⟨sub, title, url⟩
  match env.submitResult s.1 with
  | .ok => (⟨[c], 0, none⟩, (s.1 + 1, s.2))
  | .otherError => (⟨[c], 0, some .apiError⟩, (s.1 + 1, s.2))
  | .rateLimited =>
    match env.requeryUrl s.2 with
    | none => (⟨[c], 10 * 60, some .attributeError⟩, (s.1 + 1, s.2 + 1))
    | some u =>
      if some u = url then (⟨[c], 10 * 60, none⟩, (s.1 + 1, s.2 + 1))
      else
        match env.submitResult (s.1 + 1) with
        | .ok => (⟨[c, c], 10 * 60, none⟩, (s.1 + 2, s.2 + 1))
        | .rateLimited => (⟨[c, c], 10 * 60, some .rateLimitError⟩, (s.1 + 2, s.2 + 1))
        | .otherError => (⟨[c, c], 10 * 60, some .apiError⟩, (s.1 + 2, s.2 + 1))

/-- The flattened nested loops of _update_latest_link (lines 267-287): process
the (subreddit, title, url) items in order, stopping at the first uncaught
exception, which discards the rest of the batch. -/
def runItems (env : Env) : List (String × String × Option String) → Nat × Nat → Trace
  | [], _ => Trace.empty
  | it :: rest, s =>
    let rs := submitOne env s it.1 it.2.1 it.2.2
    match rs.1.crashed with
    | some e => ⟨rs.1.calls, rs.1.sleepSeconds, some e⟩
    | none =>
      let t := runItems env rest rs.2
      ⟨rs.1.calls ++ t.calls, rs.1.sleepSeconds + t.sleepSeconds, t.crashed⟩

/-- self.links[-count:] (line 266) for count ≥ 1: the last count entries
(clamped to the whole list).  _update_latest_link is only reached with
count > 0 (run, line 134), where Nat subtraction agrees with Python slicing. -/
def newChapters (links : List Chapter) (count : Nat) : List Chapter :=
  links.drop (links.length - count)

/-- zip(reversed(range(count)), new_chapters) (line 268). -/
def pairList (count : Nat) (chs : List Chapter) : List (Nat × Chapter) :=
  ((List.range count).reverse).zip chs

/-- The for sub in self.subs loop (line 267), flattened into one item list in
loop order. -/
def forEachSub (f : String → List α) : List String → List α
  | [] => []
  | s :: rest => f s ++ forEachSub f rest

/-- Model of _update_latest_link (lines 251-287).  tmpl i t models
self.template.format(i=..., title=t); the formatted number is
len(self.links) - i as a Python int (line 271). -/
def updateLatestLink (env : Env) (tmpl : Int → String → String)
    (links : List Chapter) (subs : List String) (count : Nat) : Trace :=
  let chs := newChapters links count
  let pairs := pairList count chs
  let items := forEachSub
    (fun sub => pairs.map
      (fun p => (sub, tmpl ((links.length : Int) - (p.1 : Int)) p.2.title, p.2.url)))
    subs
  runItems env items (0, 0)

/-- run (lines 125-138): resolve the latest mirrored post (early no-op return
when none), parse int(latest_post.title.partition(" - ")[0]) — unguarded, a
parse failure is an uncaught ValueError — compute
new_post_count = len(self.links) - chapter_number and submit when positive. -/
def run (env : Env) (tmpl : Int → String → String) (links : List Chapter)
    (subs : List String) (posts : List Post) (uploaders : List String) : Trace :=
  match (getLatestPost posts uploaders).1 with
  | none => Trace.empty
  | some p =>
    match pyInt (partitionFirst " - " p.title) with
    | none => ⟨[], 0, some .valueError⟩
    | some k =>
      let newPostCount : Int := (links.length : Int) - k
      if 0 < newPostCount then
        updateLatestLink env tmpl links subs newPostCount.toNat
      else Trace.empty

/-- Observable events of the loop method. -/
inductive LoopEvent where
  | cycle
  | sleep (secs : Nat)
deriving DecidableEq, Repr

/-- loop (lines 109-123): while True, re-extract the links and run one cycle
(one LoopEvent.cycle), then if interval is truthy sleep interval*60 seconds.
The guard is literally True, so the loop never exits; fuel bounds how many
iterations of the unbounded loop we observe. -/
def loopTrace : Nat → Nat → List LoopEvent
  | 0, _ => []
  | fuel + 1, interval =>
    LoopEvent.cycle ::
      ((if interval ≠ 0 then [LoopEvent.sleep (interval * 60)] else []) ++
        loopTrace fuel interval)

/-- A fixed environment in which every submission call succeeds. -/
def envOk : Env := ⟨fun _ => SubmitOutcome.ok, fun _ => none⟩

/-- A concrete title template that returns the chapter title unchanged. -/
def tmplId : Int → String → String := fun _ t => t

theorem append_cont_ne (s : String) : s ++ " (Cont.)" ≠ s := by
  intro h
  have h1 := congrArg String.length h
  have h2 : (" (Cont.)" : String).length = 8 := rfl
  rw [String.length_append, h2] at h1
  omega

/-- Claim C5: an anchor before the sentinel whose following sibling text is
non-empty after stripping makes the walk emit, immediately after that
anchor's chapter, a synthetic chapter whose url is the index url and whose
title is the (possibly suffixed) post title; on a collision with the
immediately preceding chapter's title the synthetic title gets the
" (Cont.)" suffix and the two titles differ. -/
theorem C5_synthetic_inline_chapter (indexUrl : String) (a : Anchor)
    (rest : List Anchor) (pt : String) (hs : a.text ≠ sentinelText)
    (hsib : (pyStrip a.siblingText).isEmpty = false) :
    walkLinks indexUrl (a :: rest) pt =
      (walkLinks indexUrl rest (if pt = a.text then pt ++ " (Cont.)" else pt)).map
        (fun l => Chapter.mk a.text a.href ::
          Chapter.mk (if pt = a.text then pt ++ " (Cont.)" else pt) (some indexUrl) :: l) ∧
    (pt = a.text → (if pt = a.text then pt ++ " (Cont.)" else pt) ≠ a.text) ∧
    (pt ≠ a.text → (if pt = a.text then pt ++ " (Cont.)" else pt) = pt) := by
  refine ⟨?_, ?_, ?_⟩
  · simp only [walkLinks, if_neg hs, hsib, Bool.false_eq_true, if_false]
  · intro h
    subst h
    simp only [if_pos rfl]
    exact append_cont_ne a.text
  · intro h
    simp only [if_neg h]

theorem C5_witness :
    (walkLinks "I" [⟨"T", some "u", " x"⟩] "T" =
      (walkLinks "I" [] (if "T" = "T" then "T" ++ " (Cont.)" else "T")).map
        (fun l => Chapter.mk "T" (some "u") ::
          Chapter.mk (if "T" = "T" then "T" ++ " (Cont.)" else "T") (some "I") :: l) ∧
    ("T" = "T" → (if "T" = "T" then "T" ++ " (Cont.)" else "T") ≠ "T") ∧
    ("T" ≠ "T" → (if "T" = "T" then "T" ++ " (Cont.)" else "T") = "T")) :=
  C5_synthetic_inline_chapter "I" ⟨"T", some "u", " x"⟩ [] "T" (by decide) (by decide)

/-- Claim C6: a fetch status other than 200 makes extraction fail immediately
with the TgwpError, and the result does not depend on the document at all:
the parser is never consulted. -/
theorem C6_non200_short_circuits (statusCode : Nat) (doc : Doc) (indexUrl : String)
    (h : statusCode ≠ 200) :
    getStoryLinks statusCode doc indexUrl =
      .error (.tgwpError "Cannot access the forum page.") ∧
    ∀ doc2 : Doc, getStoryLinks statusCode doc2 indexUrl =
      getStoryLinks statusCode doc indexUrl := by
  constructor
  · simp [getStoryLinks, h]
  · intro doc2
    simp [getStoryLinks, h]

theorem C6_witness :
    getStoryLinks 404 ⟨none⟩ "I" =
      .error (.tgwpError "Cannot access the forum page.") ∧
    ∀ doc2 : Doc, getStoryLinks 404 doc2 "I" = getStoryLinks 404 ⟨none⟩ "I" :=
  C6_non200_short_circuits 404 ⟨none⟩ "I" (by decide)

theorem getLatestPost_no_match : ∀ (posts : List Post) (uploaders : List String),
    (∀ p ∈ posts, uploaders.contains p.author = false) →
    getLatestPost posts uploaders = (none, true)
  | [], _, _ => rfl
  | q :: rest, ups, h => by
    have h1 := h q (List.mem_cons_self q rest)
    simp only [getLatestPost, h1, Bool.false_eq_true, if_false]
    exact getLatestPost_no_match rest ups (fun p hp => h p (List.mem_cons_of_mem q hp))

/-- Claim C8: when no scanned post has a permitted uploader as author, the
resolver returns no post and sends the admin notification, and run ends the
cycle as a no-op: no submission call, no sleep, no uncaught exception. -/
theorem C8_unresolvable_is_noop (env : Env) (tmpl : Int → String → String)
    (links : List Chapter) (subs : List String) (posts : List Post)
    (uploaders : List String)
    (h : ∀ p ∈ posts, uploaders.contains p.author = false) :
    getLatestPost posts uploaders = (none, true) ∧
    run env tmpl links subs posts uploaders = Trace.empty := by
  have hg := getLatestPost_no_match posts uploaders h
  refine ⟨hg, ?_⟩
  simp [run, hg]

theorem C8_witness :
    getLatestPost [⟨"rando", "t", "u"⟩] ["up"] = (none, true) ∧
    run envOk tmplId [] [] [⟨"rando", "t", "u"⟩] ["up"] = Trace.empty :=
  C8_unresolvable_is_noop envOk tmplId [] [] [⟨"rando", "t", "u"⟩] ["up"] (by decide)

/-- Claim C9, counterexample: with interval 0 the loop does not stop after a
single cycle — the while-True loop runs a second cycle (and sleeps never). -/
theorem C9_counterexample : loopTrace 2 0 = [LoopEvent.cycle, LoopEvent.cycle] := by
  decide

/-- Claim C9, amended: loop never returns regardless of the interval; every
observed iteration performs one full cycle.  Interval 0 merely skips the
sleep, so the first fuel iterations are fuel back-to-back cycles; a positive
interval sleeps interval*60 seconds after each cycle. -/
theorem C9_loop_never_returns : ∀ (fuel interval : Nat),
    (interval = 0 → loopTrace fuel interval = List.replicate fuel LoopEvent.cycle) ∧
    (0 < interval → loopTrace fuel interval =
      List.flatten (List.replicate fuel [LoopEvent.cycle, LoopEvent.sleep (interval * 60)])) := by
  intro fuel interval
  induction fuel with
  | zero => simp [loopTrace]
  | succ n ih =>
    constructor
    · intro h
      subst h
      simp [loopTrace, List.replicate_succ, ih.1 rfl]
    · intro h
      have hne : interval ≠ 0 := by omega
      simp [loopTrace, List.replicate_succ, hne, ih.2 h]

theorem C9_witness :
    loopTrace 2 0 = List.replicate 2 LoopEvent.cycle ∧
    loopTrace 2 3 = List.flatten (List.replicate 2 [LoopEvent.cycle, LoopEvent.sleep (3 * 60)]) :=
  ⟨(C9_loop_never_returns 2 0).1 rfl, (C9_loop_never_returns 2 3).2 (by decide)⟩

/-- Claim C10: when a latest mirrored post is found, run parses
int(title.partition(" - ")[0]) unguarded; if the prefix before the first
" - " (the whole title when the separator is absent) is not an integer, the
cycle crashes with an uncaught ValueError and makes no submission call. -/
theorem C10_unparseable_title_crashes (env : Env) (tmpl : Int → String → String)
    (links : List Chapter) (subs : List String) (posts : List Post)
    (uploaders : List String) (p : Post)
    (hp : (getLatestPost posts uploaders).1 = some p)
    (hk : pyInt (partitionFirst " - " p.title) = none) :
    run env tmpl links subs posts uploaders = ⟨[], 0, some .valueError⟩ := by
  simp [run, hp, hk]

theorem C10_witness :
    run envOk tmplId [] [] [⟨"up", "Prologue", "u"⟩] ["up"] =
      ⟨[], 0, some .valueError⟩ :=
  C10_unparseable_title_crashes envOk tmplId [] [] [⟨"up", "Prologue", "u"⟩] ["up"]
    ⟨"up", "Prologue", "u"⟩ (by decide) (by decide)

theorem submitOne_calls_le (env : Env) (s : Nat × Nat) (sub title : String)
    (url : Option String) : (submitOne env s sub title url).1.calls.length ≤ 2 := by
  unfold submitOne
  rcases hr : env.submitResult s.1 with _ | _ | _ <;> simp [hr]
  rcases hq : env.requeryUrl s.2 with _ | u <;> simp
  by_cases hu : some u = url
  · simp [hu]
  · rcases h3 : env.submitResult (s.1 + 1) with _ | _ | _ <;> simp [hu, h3]

/-- Claim C3: a pair whose first submission call is rate-limited sleeps one
10-minute back-off and re-queries the latest post; if the re-queried url
equals the link url no further submission call is made for the pair,
otherwise exactly one retry call is made; and no execution of the pair ever
makes more than two submission calls (at most one retry). -/
theorem C3_rate_limit_retry (env : Env) (s : Nat × Nat) (sub title : String)
    (url : Option String) (u : String)
    (h1 : env.submitResult s.1 = .rateLimited)
    (h2 : env.requeryUrl s.2 = some u) :
    (submitOne env s sub title url).1.sleepSeconds = 10 * 60 ∧
    (some u = url →
      (submitOne env s sub title url).1.calls = [⟨sub, title, url⟩] ∧
      (submitOne env s sub title url).1.crashed = none) ∧
    (some u ≠ url →
      (submitOne env s sub title url).1.calls = [⟨sub, title, url⟩, ⟨sub, title, url⟩]) ∧
    (∀ (env2 : Env) (s2 : Nat × Nat),
      (submitOne env2 s2 sub title url).1.calls.length ≤ 2) := by
  by_cases hu : some u = url
  · subst hu
    refine ⟨?_, ?_, ?_, ?_⟩
    · simp [submitOne, h1, h2]
    · intro _
      constructor <;> simp [submitOne, h1, h2]
    · intro hne
      exact absurd rfl hne
    · intro env2 s2
      exact submitOne_calls_le env2 s2 sub title (some u)
  · refine ⟨?_, ?_, ?_, ?_⟩
    · rcases h3 : env.submitResult (s.1 + 1) with _ | _ | _ <;>
        simp [submitOne, h1, h2, hu, h3]
    · intro heq
      exact absurd heq hu
    · intro _
      rcases h3 : env.submitResult (s.1 + 1) with _ | _ | _ <;>
        simp [submitOne, h1, h2, hu, h3]
    · intro env2 s2
      exact submitOne_calls_le env2 s2 sub title url

theorem C3_witness :
    (submitOne ⟨fun _ => .rateLimited, fun _ => some "x"⟩ (0, 0) "tgwp" "t"
        (some "x")).1.sleepSeconds = 10 * 60 ∧
    ((some "x" : Option String) = some "x" →
      (submitOne ⟨fun _ => .rateLimited, fun _ => some "x"⟩ (0, 0) "tgwp" "t"
          (some "x")).1.calls = [⟨"tgwp", "t", some "x"⟩] ∧
      (submitOne ⟨fun _ => .rateLimited, fun _ => some "x"⟩ (0, 0) "tgwp" "t"
          (some "x")).1.crashed = none) ∧
    ((some "x" : Option String) ≠ some "x" →
      (submitOne ⟨fun _ => .rateLimited, fun _ => some "x"⟩ (0, 0) "tgwp" "t"
          (some "x")).1.calls = [⟨"tgwp", "t", some "x"⟩, ⟨"tgwp", "t", some "x"⟩]) ∧
    (∀ (env2 : Env) (s2 : Nat × Nat),
      (submitOne env2 s2 "tgwp" "t" (some "x")).1.calls.length ≤ 2) :=
  C3_rate_limit_retry ⟨fun _ => .rateLimited, fun _ => some "x"⟩ (0, 0) "tgwp" "t"
    (some "x") "x" rfl rfl

/-- Claim C4, counterexample: with two destinations and one missing chapter,
a first-call rate limit followed by a failing retry crashes the whole batch:
the run aborts with the uncaught error and the second destination never
receives a submission call — the replay loop does not proceed to the next
chapter/destination item. -/
theorem C4_counterexample :
    (updateLatestLink
        ⟨fun n => if n = 0 then SubmitOutcome.rateLimited else SubmitOutcome.otherError,
         fun _ => some "other"⟩
        tmplId [⟨"Ch1", some "u1"⟩] ["suba", "subb"] 1) =
      ⟨[⟨"suba", "Ch1", some "u1"⟩, ⟨"suba", "Ch1", some "u1"⟩], 10 * 60,
        some .apiError⟩ ∧
    ∀ c ∈ (updateLatestLink
        ⟨fun n => if n = 0 then SubmitOutcome.rateLimited else SubmitOutcome.otherError,
         fun _ => some "other"⟩
        tmplId [⟨"Ch1", some "u1"⟩] ["suba", "subb"] 1).calls, c.sub ≠ "subb" := by
  constructor
  · decide
  · decide

/-- Claim C4, amended: a failure of the retry (or any non-rate-limit failure
of the first call) for one chapter/destination pair propagates as an uncaught
exception: the replay loop stops at that pair, and the remaining items of the
batch — whatever they are — are never submitted. -/
theorem C4_crash_aborts_batch (env : Env) (s : Nat × Nat)
    (it : String × String × Option String)
    (rest : List (String × String × Option String)) (e : PyError)
    (h : (submitOne env s it.1 it.2.1 it.2.2).1.crashed = some e) :
    runItems env (it :: rest) s =
      ⟨(submitOne env s it.1 it.2.1 it.2.2).1.calls,
       (submitOne env s it.1 it.2.1 it.2.2).1.sleepSeconds, some e⟩ := by
  simp [runItems, h]

theorem C4_crash_aborts_batch_witness :
    runItems ⟨fun _ => SubmitOutcome.otherError, fun _ => none⟩
        [("a", "t", none), ("b", "t", none)] (0, 0) =
      ⟨[⟨"a", "t", none⟩], 0, some .apiError⟩ :=
  C4_crash_aborts_batch ⟨fun _ => SubmitOutcome.otherError, fun _ => none⟩ (0, 0)
    ("a", "t", none) [("b", "t", none)] .apiError rfl

theorem except_map_error {α β γ : Type} (f : α → β) (x : Except γ α) (e : γ)
    (h : x.map f = .error e) : x = .error e := by
  cases x with
  | error a => simpa [Except.map] using h
  | ok a => simp [Except.map] at h

theorem walkLinks_error_attr (indexUrl : String) :
    ∀ (anchors : List Anchor) (pt : String) (e : PyError),
    walkLinks indexUrl anchors pt = .error e → e = .attributeError
  | [], _, e, h => (Except.error.inj h).symm
  | a :: rest, pt, e, h => by
    by_cases hs : a.text = sentinelText
    · simp [walkLinks, hs] at h
    · by_cases hsib : (pyStrip a.siblingText).isEmpty
      · rw [walkLinks, if_neg hs, if_pos hsib] at h
        exact walkLinks_error_attr indexUrl rest pt e (except_map_error _ _ _ h)
      · rw [walkLinks, if_neg hs, if_neg hsib] at h
        exact walkLinks_error_attr indexUrl rest _ e (except_map_error _ _ _ h)

/-- Claim C7, counterexample: a well-fetched (status 200) document whose
anchor chain ends without ever reaching the sentinel anchor makes extraction
fail with AttributeError (link is None and link.text is accessed), not with
the designated TgwpError. -/
theorem C7_counterexample :
    getStoryLinks 200 ⟨some ⟨some ["", "Title"], [⟨"Ch 1", some "u", ""⟩]⟩⟩ "I" =
      .error .attributeError ∧
    ∀ m, (Except.error PyError.attributeError : Except PyError (List Chapter)) ≠
      .error (.tgwpError m) := by
  constructor
  · rfl
  · intro m h
    exact PyError.noConfusion (Except.error.inj h)

/-- Claim C7, amended: extraction either returns the ordered chapter list or
fails; the failure is the TgwpError exactly for a non-200 fetch, while a
document that does not match the expected shape (missing article, missing
div text, missing sentinel) raises AttributeError or IndexError, which
escape extraction instead of being converted to TgwpError. -/
theorem C7_error_classification (statusCode : Nat) (doc : Doc) (indexUrl : String)
    (e : PyError) (h : getStoryLinks statusCode doc indexUrl = .error e) :
    (statusCode ≠ 200 → e = .tgwpError "Cannot access the forum page.") ∧
    (statusCode = 200 → e = .attributeError ∨ e = .indexError) := by
  constructor
  · intro hs
    rw [getStoryLinks, if_pos hs] at h
    exact (Except.error.inj h).symm
  · intro hs
    subst hs
    have h200 : ¬ ((200 : Nat) ≠ 200) := by omega
    rcases doc with ⟨art⟩
    rcases art with _ | ⟨dl, anchors⟩
    · simp [getStoryLinks, h200] at h
      exact Or.inl h.symm
    · rcases dl with _ | lines
      · simp [getStoryLinks, h200] at h
        exact Or.inl h.symm
      · rcases hl : lines[1]? with _ | t
        · simp [getStoryLinks, h200, hl] at h
          exact Or.inr h.symm
        · simp [getStoryLinks, h200, hl] at h
          exact Or.inl (walkLinks_error_attr indexUrl anchors t e h)

theorem C7_witness :
    ((200 : Nat) ≠ 200 →
      PyError.attributeError = .tgwpError "Cannot access the forum page.") ∧
    ((200 : Nat) = 200 →
      PyError.attributeError = .attributeError ∨
      PyError.attributeError = .indexError) :=
  C7_error_classification 200 ⟨none⟩ "I" .attributeError rfl

theorem runItems_all_ok (env : Env) (hok : ∀ n, env.submitResult n = .ok) :
    ∀ (items : List (String × String × Option String)) (s : Nat × Nat),
    runItems env items s =
      ⟨items.map (fun it => ⟨it.1, it.2.1, it.2.2⟩), 0, none⟩
  | [], _ => rfl
  | it :: rest, s => by
    have h1 : submitOne env s it.1 it.2.1 it.2.2 =
        (⟨[⟨it.1, it.2.1, it.2.2⟩], 0, none⟩, (s.1 + 1, s.2)) := by
      simp [submitOne, hok s.1]
    simp [runItems, h1, runItems_all_ok env hok rest (s.1 + 1, s.2)]

theorem map_forEachSub (g : α → β) (f : String → List α) :
    ∀ (subs : List String),
    (forEachSub f subs).map g = forEachSub (fun s => (f s).map g) subs
  | [] => rfl
  | s :: rest => by simp [forEachSub, map_forEachSub g f rest]

theorem forEachSub_congr (f g : String → List α) (h : ∀ s, f s = g s) :
    ∀ (subs : List String), forEachSub f subs = forEachSub g subs
  | [] => rfl
  | s :: rest => by simp [forEachSub, h s, forEachSub_congr f g h rest]

theorem map_pairList {α : Type} (d : Chapter) (g : Nat × Chapter → α) (count : Nat)
    (chs : List Chapter) (h : chs.length = count) :
    (pairList count chs).map g =
      (List.range count).map (fun j => g (count - 1 - j, chs.getD j d)) := by
  apply List.ext_getElem
  · simp [pairList, h]
  · intro i h1 h2
    have hi : i < count := by
      simpa [pairList, h] using h1
    simp [pairList, List.getElem_zip, List.getElem_reverse, List.getD_eq_getElem, h, hi]

/-- Claim C1: with a latest mirrored post whose parsed chapter number is k
and N chapters extracted, run computes missing = N - k; when missing ≤ 0
nothing at all happens (no submission call, no sleep, no crash), and when
missing > 0 run hands exactly the last missing chapters of the list, in their
original order, to the replayer. -/
theorem C1_resolver_selects_last_missing (env : Env) (tmpl : Int → String → String)
    (links : List Chapter) (subs : List String) (posts : List Post)
    (uploaders : List String) (p : Post) (k : Int)
    (hp : (getLatestPost posts uploaders).1 = some p)
    (hk : pyInt (partitionFirst " - " p.title) = some k)
    (hk0 : 0 ≤ k) :
    ((links.length : Int) - k ≤ 0 →
      run env tmpl links subs posts uploaders = Trace.empty) ∧
    (0 < (links.length : Int) - k →
      run env tmpl links subs posts uploaders =
        updateLatestLink env tmpl links subs ((links.length : Int) - k).toNat ∧
      (newChapters links ((links.length : Int) - k).toNat).length =
        ((links.length : Int) - k).toNat ∧
      List.IsSuffix (newChapters links ((links.length : Int) - k).toNat) links) := by
  constructor
  · intro hle
    have hnot : ¬ (0 < (links.length : Int) - k) := by omega
    simp [run, hp, hk, hnot]
  · intro hlt
    refine ⟨?_, ?_, ?_⟩
    · simp [run, hp, hk, hlt]
    · simp only [newChapters, List.length_drop]
      omega
    · exact List.drop_suffix _ _

theorem C1_witness :
    ((([⟨"One", some "a"⟩, ⟨"Two", some "b"⟩, ⟨"Three", some "c"⟩] :
        List Chapter).length : Int) - 2 ≤ 0 →
      run envOk tmplId [⟨"One", some "a"⟩, ⟨"Two", some "b"⟩, ⟨"Three", some "c"⟩]
        ["tgwp"] [⟨"up", "2 - Two", "r2"⟩] ["up"] = Trace.empty) ∧
    (0 < (([⟨"One", some "a"⟩, ⟨"Two", some "b"⟩, ⟨"Three", some "c"⟩] :
        List Chapter).length : Int) - 2 →
      run envOk tmplId [⟨"One", some "a"⟩, ⟨"Two", some "b"⟩, ⟨"Three", some "c"⟩]
          ["tgwp"] [⟨"up", "2 - Two", "r2"⟩] ["up"] =
        updateLatestLink envOk tmplId
          [⟨"One", some "a"⟩, ⟨"Two", some "b"⟩, ⟨"Three", some "c"⟩] ["tgwp"] 1 ∧
      (newChapters [⟨"One", some "a"⟩, ⟨"Two", some "b"⟩, ⟨"Three", some "c"⟩] 1).length = 1 ∧
      List.IsSuffix (newChapters [⟨"One", some "a"⟩, ⟨"Two", some "b"⟩, ⟨"Three", some "c"⟩] 1)
        [⟨"One", some "a"⟩, ⟨"Two", some "b"⟩, ⟨"Three", some "c"⟩]) :=
  C1_resolver_selects_last_missing envOk tmplId
    [⟨"One", some "a"⟩, ⟨"Two", some "b"⟩, ⟨"Three", some "c"⟩] ["tgwp"]
    [⟨"up", "2 - Two", "r2"⟩] ["up"] ⟨"up", "2 - Two", "r2"⟩ 2
    (by decide) (by decide) (by decide)

/-- Claim C2, counterexample: an environment with no rate-limit condition at
all (every submission call raises a non-rate-limit error) still leaves the
second destination with zero submission calls for the missing chapter: the
first pair's uncaught error aborts the batch, so it is not true that absent a
rate-limit condition every chapter/destination pair gets exactly one call. -/
theorem C2_counterexample :
    (updateLatestLink ⟨fun _ => SubmitOutcome.otherError, fun _ => none⟩ tmplId
        [⟨"Ch1", some "u1"⟩] ["suba", "subb"] 1).calls = [⟨"suba", "Ch1", some "u1"⟩] ∧
    ∀ c ∈ (updateLatestLink ⟨fun _ => SubmitOutcome.otherError, fun _ => none⟩ tmplId
        [⟨"Ch1", some "u1"⟩] ["suba", "subb"] 1).calls, c.sub ≠ "subb" := by
  constructor
  · decide
  · decide

/-- Claim C2, amended: when every submission call succeeds, every destination
receives every missing chapter exactly once, in loop order, and the j-th
submission (1-indexed j, ascending chapter order) for a destination carries
the title produced by the template at absolute number N - missing + j with
that chapter's title text; no crash occurs. -/
theorem C2_each_pair_submitted_once (env : Env) (tmpl : Int → String → String)
    (links : List Chapter) (subs : List String) (count : Nat)
    (hok : ∀ n, env.submitResult n = .ok) (h1 : 0 < count)
    (h2 : count ≤ links.length) :
    (updateLatestLink env tmpl links subs count).calls =
      forEachSub (fun sub => (List.range count).map (fun j =>
        ⟨sub, tmpl ((links.length : Int) - count + (j + 1))
            ((newChapters links count).getD j ⟨"", none⟩).title,
          ((newChapters links count).getD j ⟨"", none⟩).url⟩)) subs ∧
    (updateLatestLink env tmpl links subs count).crashed = none := by
  have hlen : (newChapters links count).length = count := by
    simp only [newChapters, List.length_drop]
    omega
  have key : updateLatestLink env tmpl links subs count =
      ⟨(forEachSub (fun sub => (pairList count (newChapters links count)).map
          (fun p => (sub, tmpl ((links.length : Int) - (p.1 : Int)) p.2.title, p.2.url))) subs).map
          (fun it => ⟨it.1, it.2.1, it.2.2⟩), 0, none⟩ :=
    runItems_all_ok env hok _ (0, 0)
  refine ⟨?_, ?_⟩
  · rw [key]
    show (forEachSub _ subs).map _ = _
    rw [map_forEachSub]
    apply forEachSub_congr
    intro s
    rw [List.map_map]
    rw [map_pairList ⟨"", none⟩ _ count (newChapters links count) hlen]
    apply List.map_congr_left
    intro j hj
    have hjc : j < count := List.mem_range.mp hj
    have harg : (links.length : Int) - ((count - 1 - j : Nat) : Int) =
        (links.length : Int) - count + (j + 1) := by omega
    simp [Function.comp, harg]
  · rw [key]

theorem C2_witness :
    (updateLatestLink envOk tmplId [⟨"A", some "a"⟩, ⟨"B", some "b"⟩] ["s"] 1).calls =
      forEachSub (fun sub => (List.range 1).map (fun j =>
        ⟨sub, tmplId ((([⟨"A", some "a"⟩, ⟨"B", some "b"⟩] : List Chapter).length : Int) - 1 + (j + 1))
            ((newChapters [⟨"A", some "a"⟩, ⟨"B", some "b"⟩] 1).getD j ⟨"", none⟩).title,
          ((newChapters [⟨"A", some "a"⟩, ⟨"B", some "b"⟩] 1).getD j ⟨"", none⟩).url⟩)) ["s"] ∧
    (updateLatestLink envOk tmplId [⟨"A", some "a"⟩, ⟨"B", some "b"⟩] ["s"] 1).crashed = none :=
  C2_each_pair_submitted_once envOk tmplId [⟨"A", some "a"⟩, ⟨"B", some "b"⟩] ["s"] 1
    (fun _ => rfl) (by decide) (by decide)

end TgwpUpdater
